import Mathlib

/-!
Verification of the Kakeibo allocation engine
(src/client/src/KakeiboPage.jsx).

The engine is the set of pure derived-state computations of the page
component: `totalIncome`, `fundsAsAmount`, `allocatedTotal`, `remaining`,
`step1Errors`, `step2Errors`, `canDone`, together with the state-updating
handlers `resetAll`, `saveStep1Local`, `doneStep2Local`, `setMode` and the
received-checkbox `onChange` handler built on `updateSource`.

Numbers: the JavaScript code computes with IEEE doubles; here every numeric
value is a rational (`ℚ`) and the literal `0.0001` is the exact rational
1/10000.  A text input field is embedded as the stored string together with
the value JavaScript `Number()` coercion gives for it: `none` when the
coercion is not finite (`NaN`, `±Infinity`), `some q` when it is the finite
value `q`.  The empty string coerces to `0` in JavaScript, so the empty
field carries `some 0`.
-/

/-- A React-state text field: the stored string and the result of JavaScript
`Number()` coercion on it (`none` = not finite, `some q` = finite value `q`). -/
structure JsText where
  text : String
  num : Option ℚ
deriving DecidableEq

/-- The empty input field: `Number("") = 0` in JavaScript. -/
def emptyText : JsText := ⟨"", some 0⟩

/-- Shorthand for a field whose stored text coerces to the finite value `q`. -/
def numText (s : String) (q : ℚ) : JsText := ⟨s, some q⟩

/-- Embeds `clampNumber` (KakeiboPage.jsx lines 22-25):
`const n = Number(v); return Number.isFinite(n) ? n : 0;`.
Non-finite coercions become 0; finite values — negative ones included —
pass through unchanged. -/
def clampNumber (v : JsText) : ℚ :=
  match v.num with
  | some n => n
  | none => 0

/-- One income source card (Step 1 state, lines 37-40):
`{ id, name, received, amount }` with `amount` a free-text field. -/
structure IncomeSource where
  id : String
  name : String
  received : Bool
  amount : JsText
deriving DecidableEq

/-- The Step 2 mode toggle (line 52): `"amount" | "percent"`. -/
inductive Mode where
  | amount
  | percent
deriving DecidableEq

/-- Step 2 fund-allocation inputs (line 53):
`{ ef: "", sf: "", spending: "", fun: "" }`; the source field `fun` is a
Lean keyword and is called `fn` here. -/
structure Funds where
  ef : JsText
  sf : JsText
  spending : JsText
  fn : JsText
deriving DecidableEq

/-- The four converted peso amounts produced by `fundsAsAmount`. -/
structure FundAmounts where
  ef : ℚ
  sf : ℚ
  spending : ℚ
  fn : ℚ
deriving DecidableEq

/-- The reducer body of `totalIncome` (lines 94-98): a source that is not
received leaves the accumulator unchanged, otherwise `clampNumber(amount)`
is added when positive and 0 otherwise. -/
def totalIncomeStep (sum : ℚ) (s : IncomeSource) : ℚ :=
  if !s.received then sum
  else
    let amt := clampNumber s.amount
    sum + (if 0 < amt then amt else 0)

/-- Embeds `totalIncome` (lines 93-99): reduce over the sources with the
accumulator starting at 0. -/
def totalIncome (sources : List IncomeSource) : ℚ :=
  sources.foldl totalIncomeStep 0

/-- Embeds `step1Valid` (line 101): `totalIncome > 0`. -/
def step1Valid (sources : List IncomeSource) : Bool :=
  decide (0 < totalIncome sources)

/-- Embeds `fundsAsAmount` (lines 108-125): under `amount` mode the four fields are
passed through `clampNumber`; under `percent` mode each field becomes
`totalIncome * clampNumber(field) / 100`. -/
def fundsAsAmount (funds : Funds) (mode : Mode) (tIncome : ℚ) : FundAmounts :=
  match mode with
  | Mode.amount =>
      ⟨clampNumber funds.ef, clampNumber funds.sf,
       clampNumber funds.spending, clampNumber funds.fn⟩
  | Mode.percent =>
      ⟨tIncome * clampNumber funds.ef / 100,
       tIncome * clampNumber funds.sf / 100,
       tIncome * clampNumber funds.spending / 100,
       tIncome * clampNumber funds.fn / 100⟩

/-- Embeds `allocatedTotal` (lines 127-134): sum of the four converted amounts. -/
def allocatedTotal (f : FundAmounts) : ℚ :=
  f.ef + f.sf + f.spending + f.fn

/-- Embeds `remaining` (lines 136-139): `totalIncome - allocatedTotal`. -/
def remaining (tIncome allocTotal : ℚ) : ℚ :=
  tIncome - allocTotal

/-- Error message pushed when no source is received with a positive amount
(line 148). -/
def missingReceivedMsg : String :=
  "At least 1 source must be marked received with an amount > 0."

/-- Per-source error message (line 152): `` `${s.name}: amount must be > 0 if received is ON.` ``. -/
def nonPositiveMsg (name : String) : String :=
  name ++ ": amount must be > 0 if received is ON."

/-- Embeds `step1Errors` (lines 145-156): first the aggregate check via
`sources.some`, then one error per received source whose clamped amount
is ≤ 0, in list order. -/
def step1Errors (sources : List IncomeSource) : List String :=
  (if sources.any (fun s => s.received && decide (0 < clampNumber s.amount))
   then []
   else [missingReceivedMsg])
  ++ sources.filterMap
      (fun s =>
        if s.received = true ∧ clampNumber s.amount ≤ 0
        then some (nonPositiveMsg s.name)
        else none)

/-- Stage-2 lock message (line 161). -/
def stage2LockedMsg : String :=
  "Step 2 is locked until Step 1 has a valid total income."

/-- Over-allocation message under amount mode (line 166). -/
def allocExceedsMsg : String :=
  "Allocated total cannot exceed total income."

/-- Percent-total message under percent mode (line 175). -/
def percentExceedsMsg : String :=
  "Total percent cannot exceed 100%."

/-- The floating-point tolerance `0.0001` of lines 165 and 175,
embedded as the exact rational. -/
def eps : ℚ := 1 / 10000

/-- The raw percent total of lines 170-174:
`clampNumber(funds.ef) + clampNumber(funds.sf) + clampNumber(funds.spending)
+ clampNumber(funds.fun)`. -/
def pctTotal (funds : Funds) : ℚ :=
  clampNumber funds.ef + clampNumber funds.sf
    + clampNumber funds.spending + clampNumber funds.fn

/-- Embeds `step2Errors` (lines 158-179): when `step1Valid` fails, the single lock
error is returned at once; otherwise the amount-mode aggregate check and the
percent-mode aggregate check run, each guarded by the current mode. -/
def step2Errors (tIncome : ℚ) (mode : Mode) (funds : Funds)
    (allocTotal : ℚ) : List String :=
  if 0 < tIncome then
    (if mode = Mode.amount ∧ tIncome + eps < allocTotal
     then [allocExceedsMsg] else [])
    ++ (if mode = Mode.percent ∧ 100 + eps < pctTotal funds
        then [percentExceedsMsg] else [])
  else [stage2LockedMsg]

/-- Embeds `canDone` (line 181): `step2Errors.length === 0`. -/
def canDone (tIncome : ℚ) (mode : Mode) (funds : Funds)
    (allocTotal : ℚ) : Bool :=
  (step2Errors tIncome mode funds allocTotal).length == 0

/-- The engine state held by the page component: the sources list, the mode
toggle, the fund inputs, and the finalized DONE snapshot.  The toast message
is transient UI feedback, not engine state, and is not modelled. -/
structure PageState where
  sources : List IncomeSource
  mode : Mode
  funds : Funds
  doneSummary : Option FundAmounts
deriving DecidableEq

/-- Derived `totalIncome` of a state. -/
def PageState.income (st : PageState) : ℚ := totalIncome st.sources

/-- Derived converted amounts of a state (line 108: computed from the
current funds, mode and total income). -/
def PageState.amounts (st : PageState) : FundAmounts :=
  fundsAsAmount st.funds st.mode st.income

/-- Derived `canDone` of a state (the spec calls it `canFinalize`). -/
def PageState.canFinalize (st : PageState) : Bool :=
  canDone st.income st.mode st.funds (allocatedTotal st.amounts)

/-- Embeds `setMode` (lines 372, 378): the mode buttons replace only `mode`. -/
def setMode (m : Mode) (st : PageState) : PageState :=
  { st with mode := m }

/-- The initial component state (lines 37-53, 82): BPI and GCash cards,
nothing received, empty fields, amount mode, no DONE snapshot. -/
def initState : PageState :=
  { sources :=
      [⟨"bpi", "BPI", false, emptyText⟩, ⟨"gcash", "GCash", false, emptyText⟩]
    mode := Mode.amount
    funds := ⟨emptyText, emptyText, emptyText, emptyText⟩
    doneSummary := none }

/-- Embeds `resetAll` (lines 231-237): every source keeps its id and name but is
set back to `received=false, amount=""`; funds are emptied, mode returns to
`amount`, the DONE snapshot is cleared. -/
def resetAll (st : PageState) : PageState :=
  { st with
    sources := st.sources.map (fun s => { s with received := false, amount := emptyText })
    funds := ⟨emptyText, emptyText, emptyText, emptyText⟩
    mode := Mode.amount
    doneSummary := none }

/-- Embeds `saveStep1Local` (lines 213-220): bail out (toast only) when
`step1Errors` is non-empty, otherwise clear the DONE snapshot. -/
def saveStep1Local (st : PageState) : PageState :=
  if step1Errors st.sources ≠ [] then st
  else { st with doneSummary := none }

/-- Embeds `doneStep2Local` (lines 222-229): bail out (toast only) when `canDone`
is false, otherwise store the current converted amounts as the snapshot. -/
def doneStep2Local (st : PageState) : PageState :=
  if !st.canFinalize then st
  else { st with doneSummary := some st.amounts }

/-- Embeds `updateSource` (lines 193-195): patch every source whose id matches. -/
def updateSource (id : String) (patch : IncomeSource → IncomeSource)
    (st : PageState) : PageState :=
  { st with sources := st.sources.map (fun s => if s.id = id then patch s else s) }

/-- The received-checkbox `onChange` handler (lines 302-308):
`updateSource(s.id, { received: checked, amount: checked ? s.amount : "" })`. -/
def toggleReceived (id : String) (checked : Bool) (st : PageState) : PageState :=
  updateSource id
    (fun s => { s with
      received := checked
      amount := if checked then s.amount else emptyText })
    st

/-- Sources of spec scenario 5: BPI received with "1000", GCash not received
with "500". -/
def demoSources : List IncomeSource :=
  [⟨"bpi", "BPI", true, numText "1000" 1000⟩,
   ⟨"gcash", "GCash", false, numText "500" 500⟩]

/-- Funds of spec scenario 6: amounts 300 / 200 / 400 / 50. -/
def demoFundsAmt : Funds :=
  ⟨numText "300" 300, numText "200" 200, numText "400" 400, numText "50" 50⟩

/-- Funds of spec scenario 7: percents 30 / 30 / 30 / 20 (sum 110). -/
def demoFundsPct : Funds :=
  ⟨numText "30" 30, numText "30" 30, numText "30" 30, numText "20" 20⟩

/-- Funds with a single field above 100 percent while the aggregate
150 - 60 + 5 + 5 = 100 stays within the percent bound. -/
def overFunds : Funds :=
  ⟨numText "150" 150, numText "-60" (-60), numText "5" 5, numText "5" 5⟩

/-- Funds whose first field stores the text "-5", which JavaScript `Number()`
coerces to the finite value -5. -/
def negFunds : Funds :=
  ⟨numText "-5" (-5), emptyText, emptyText, emptyText⟩

/-- Two sources, both received, one with amount "100" and one with
amount "0". -/
def cexSources : List IncomeSource :=
  [⟨"bpi", "BPI", true, numText "100" 100⟩,
   ⟨"gcash", "GCash", true, numText "0" 0⟩]

/-- A state after finalizing: one received source, percent mode, a stored
DONE snapshot. -/
def doneState : PageState :=
  { sources := [⟨"bpi", "BPI", true, numText "1000" 1000⟩]
    mode := Mode.percent
    funds := demoFundsPct
    doneSummary := some ⟨300, 300, 300, 200⟩ }

/-- What one source contributes to `totalIncome`: its clamped amount when it
is received and that amount is positive, 0 otherwise. -/
def contrib (s : IncomeSource) : ℚ :=
  if s.received
  then (if 0 < clampNumber s.amount then clampNumber s.amount else 0)
  else 0

lemma totalIncomeStep_eq (a : ℚ) (s : IncomeSource) :
    totalIncomeStep a s = a + contrib s := by
  cases h : s.received <;> simp [totalIncomeStep, contrib, h]

lemma contrib_nonneg (s : IncomeSource) : 0 ≤ contrib s := by
  unfold contrib
  split
  · split
    · exact le_of_lt (by assumption)
    · exact le_refl 0
  · exact le_refl 0

lemma totalIncome_eq_sum (l : List IncomeSource) :
    totalIncome l = (l.map contrib).sum := by
  suffices h : ∀ a : ℚ, l.foldl totalIncomeStep a = a + (l.map contrib).sum by
    simpa using h 0
  induction l with
  | nil => intro a; simp
  | cons s t ih =>
      intro a
      simp [List.foldl_cons, totalIncomeStep_eq, ih, add_assoc]

/-- Claim C3: `totalIncome` equals the sum of `clampNumber(amount)` over
exactly the sources with `received = true` and positive clamped amount
(unparsable or non-positive amounts contribute nothing), and it is always
non-negative. -/
theorem C3_totalIncome (sources : List IncomeSource) :
    totalIncome sources =
      ((sources.filter
          (fun s => s.received && decide (0 < clampNumber s.amount))).map
        (fun s => clampNumber s.amount)).sum
    ∧ 0 ≤ totalIncome sources := by
  constructor
  · rw [totalIncome_eq_sum]
    induction sources with
    | nil => simp
    | cons s t ih =>
        cases hr : s.received
        · simp [contrib, hr, ih]
        · by_cases ha : 0 < clampNumber s.amount
          · simp [contrib, hr, ha, List.filter_cons, ih]
          · simp [contrib, hr, ha, List.filter_cons, ih]
  · rw [totalIncome_eq_sum]
    apply List.sum_nonneg
    intro x hx
    rcases List.mem_map.mp hx with ⟨s, _, rfl⟩
    exact contrib_nonneg s

lemma step1_any_iff (sources : List IncomeSource) :
    (sources.any (fun s => s.received && decide (0 < clampNumber s.amount)))
        = true
    ↔ ∃ s ∈ sources, s.received = true ∧ 0 < clampNumber s.amount := by
  simp [List.any_eq_true]

lemma step1_filterMap_iff (sources : List IncomeSource) :
    sources.filterMap
        (fun s =>
          if s.received = true ∧ clampNumber s.amount ≤ 0
          then some (nonPositiveMsg s.name)
          else none) = []
    ↔ ∀ s ∈ sources, s.received = true → 0 < clampNumber s.amount := by
  rw [List.filterMap_eq_nil_iff]
  constructor
  · intro h s hs hr
    by_contra hlt
    push_neg at hlt
    have := h s hs
    rw [if_pos ⟨hr, hlt⟩] at this
    exact Option.some_ne_none _ this
  · intro h s hs
    rw [if_neg]
    rintro ⟨hr, hle⟩
    exact absurd (h s hs hr) (not_lt.mpr hle)

/-- Claim C2 (counterexample): with BPI received at "100" and GCash received
at "0", `totalIncome = 100 > 0` yet `step1Errors` is non-empty (it holds the
per-source GCash error), so validity does not coincide with
`totalIncome > 0`. -/
theorem C2_cex :
    ¬ (step1Errors cexSources = [] ↔ 0 < totalIncome cexSources) := by
  have h1 : step1Errors cexSources = [nonPositiveMsg "GCash"] := by
    simp [step1Errors, cexSources, clampNumber, numText]
  have h2 : 0 < totalIncome cexSources := by
    simp [totalIncome, totalIncomeStep, cexSources, clampNumber, numText]
  intro h
  have h3 := h.mpr h2
  rw [h1] at h3
  simp at h3

/-- Claim C2 (amended): `step1Errors` is empty iff some source is received
with positive clamped amount and every received source has positive clamped
amount; emptiness still implies `totalIncome > 0`, but the converse fails. -/
theorem C2_amended (sources : List IncomeSource) :
    (step1Errors sources = [] ↔
      (∃ s ∈ sources, s.received = true ∧ 0 < clampNumber s.amount) ∧
        ∀ s ∈ sources, s.received = true → 0 < clampNumber s.amount)
    ∧ (step1Errors sources = [] → 0 < totalIncome sources) := by
  have hmain : step1Errors sources = [] ↔
      (∃ s ∈ sources, s.received = true ∧ 0 < clampNumber s.amount) ∧
        ∀ s ∈ sources, s.received = true → 0 < clampNumber s.amount := by
    unfold step1Errors
    rw [List.append_eq_nil]
    constructor
    · rintro ⟨h1, h2⟩
      refine ⟨?_, (step1_filterMap_iff sources).mp h2⟩
      apply (step1_any_iff sources).mp
      cases hc : sources.any (fun s => s.received && decide (0 < clampNumber s.amount))
      · rw [hc] at h1; simp at h1
      · rfl
    · rintro ⟨hex, hall⟩
      rw [if_pos ((step1_any_iff sources).mpr hex)]
      exact ⟨rfl, (step1_filterMap_iff sources).mpr hall⟩
  refine ⟨hmain, ?_⟩
  intro h
  rcases (hmain.mp h).1 with ⟨s, hs, hr, hpos⟩
  have hcpos : 0 < contrib s := by simp [contrib, hr, hpos]
  have hmem : contrib s ∈ sources.map contrib := List.mem_map_of_mem contrib hs
  have hle : contrib s ≤ (sources.map contrib).sum :=
    List.single_le_sum
      (fun x hx => by
        rcases List.mem_map.mp hx with ⟨y, _, rfl⟩
        exact contrib_nonneg y)
      _ hmem
  rw [totalIncome_eq_sum]
  exact lt_of_lt_of_le hcpos hle

/-- Claim C2 (witness): the amended characterization applied to the
scenario-5 sources, whose error list is empty and whose total income is
positive. -/
theorem C2_wit : step1Errors demoSources = [] ∧ 0 < totalIncome demoSources := by
  have he : step1Errors demoSources = [] := by
    apply (C2_amended demoSources).1.mpr
    constructor
    · exact ⟨⟨"bpi", "BPI", true, numText "1000" 1000⟩, by simp [demoSources],
        rfl, by simp [clampNumber, numText]⟩
    · intro s hs hr
      simp [demoSources] at hs
      rcases hs with h | h <;> rw [h] at hr ⊢ <;>
        simp_all [clampNumber, numText]
  exact ⟨he, (C2_amended demoSources).2 he⟩

/-- Claim C4: whenever stage 1 is invalid (`totalIncome` not positive, in
particular 0), `step2Errors` is exactly the single lock message, whatever
the mode, fund fields and allocated total are. -/
theorem C4_locked (tIncome : ℚ) (mode : Mode) (funds : Funds)
    (allocTotal : ℚ) (h : ¬ 0 < tIncome) :
    step2Errors tIncome mode funds allocTotal = [stage2LockedMsg] := by
  simp [step2Errors, h]

/-- Claim C4 (witness): at `totalIncome = 0`, percent mode and arbitrary
fund values, the lock message is the only stage-2 error. -/
theorem C4_wit :
    step2Errors 0 Mode.percent demoFundsPct 12345 = [stage2LockedMsg] :=
  C4_locked 0 Mode.percent demoFundsPct 12345 (by norm_num)

/-- Claim C1 (counterexample): under `amount` mode with the stored text
"-5" (which coerces to -5), `fundsAsAmount` returns -5 for the emergency
fund — a negative output, so the outputs are not clamped to be
non-negative. -/
theorem C1_cex :
    (fundsAsAmount negFunds Mode.amount 0).ef = -5
    ∧ ¬ 0 ≤ (fundsAsAmount negFunds Mode.amount 0).ef := by
  constructor
  · simp [fundsAsAmount, negFunds, clampNumber, numText]
  · norm_num [fundsAsAmount, negFunds, clampNumber, numText]

/-- Claim C1 (amended): `fundsAsAmount` maps non-finite text to 0 but
applies no lower clamp: under `amount` mode each output is exactly
`clampNumber(field)` (the identity on parsed inputs), under `percent` mode
it is `totalIncome * clampNumber(field) / 100`; the four outputs are
non-negative provided each parsed field and the total income are
non-negative. -/
theorem C1_amended (funds : Funds) (tIncome : ℚ) :
    fundsAsAmount funds Mode.amount tIncome
        = ⟨clampNumber funds.ef, clampNumber funds.sf,
           clampNumber funds.spending, clampNumber funds.fn⟩
    ∧ fundsAsAmount funds Mode.percent tIncome
        = ⟨tIncome * clampNumber funds.ef / 100,
           tIncome * clampNumber funds.sf / 100,
           tIncome * clampNumber funds.spending / 100,
           tIncome * clampNumber funds.fn / 100⟩
    ∧ (0 ≤ tIncome → 0 ≤ clampNumber funds.ef → 0 ≤ clampNumber funds.sf →
        0 ≤ clampNumber funds.spending → 0 ≤ clampNumber funds.fn →
        ∀ m : Mode,
          0 ≤ (fundsAsAmount funds m tIncome).ef
          ∧ 0 ≤ (fundsAsAmount funds m tIncome).sf
          ∧ 0 ≤ (fundsAsAmount funds m tIncome).spending
          ∧ 0 ≤ (fundsAsAmount funds m tIncome).fn) := by
  refine ⟨rfl, rfl, ?_⟩
  intro htI hef hsf hsp hfn m
  cases m
  · exact ⟨hef, hsf, hsp, hfn⟩
  · exact ⟨div_nonneg (mul_nonneg htI hef) (by norm_num),
      div_nonneg (mul_nonneg htI hsf) (by norm_num),
      div_nonneg (mul_nonneg htI hsp) (by norm_num),
      div_nonneg (mul_nonneg htI hfn) (by norm_num)⟩

/-- Claim C1 (witness): the amended statement applied at the negative
field "-5" — the amount-mode identity passes -5 through unclamped and the
percent formula reads it literally — and at the non-negative 30/30/30/20
funds, whose percent-mode outputs are non-negative. -/
theorem C1_wit :
    (fundsAsAmount negFunds Mode.amount 1000).ef = -5
    ∧ (fundsAsAmount negFunds Mode.percent 1000).ef = 1000 * (-5) / 100
    ∧ 0 ≤ (fundsAsAmount demoFundsPct Mode.percent 1000).ef
    ∧ 0 ≤ (fundsAsAmount demoFundsPct Mode.percent 1000).fn := by
  have h := C1_amended negFunds 1000
  have h2 := (C1_amended demoFundsPct 1000).2.2 (by norm_num)
    (by norm_num [clampNumber, demoFundsPct, numText])
    (by norm_num [clampNumber, demoFundsPct, numText])
    (by norm_num [clampNumber, demoFundsPct, numText])
    (by norm_num [clampNumber, demoFundsPct, numText])
    Mode.percent
  refine ⟨?_, ?_, h2.1, h2.2.2.2⟩
  · rw [h.1]
    norm_num [clampNumber, negFunds, numText]
  · rw [h.2.1]
    norm_num [clampNumber, negFunds, numText]

/-- Claim C5: with stage 1 valid and percent mode, `step2Errors` is the
singleton percent error exactly when the sum of the four raw clamped percent
fields exceeds `100 + 1/10000`, and only the aggregate is checked (the
`overFunds` conjunct has a single field at 150 yet no error); the 30/30/30/20
scenario produces the error and `canDone = false`. -/
theorem C5_percent (tIncome allocTotal : ℚ) (funds : Funds)
    (h : 0 < tIncome) :
    (step2Errors tIncome Mode.percent funds allocTotal
        = if 100 + 1 / 10000 < pctTotal funds then [percentExceedsMsg] else [])
    ∧ (percentExceedsMsg ∈ step2Errors tIncome Mode.percent funds allocTotal
        ↔ 100 + 1 / 10000 < pctTotal funds)
    ∧ step2Errors 1000 Mode.percent demoFundsPct allocTotal
        = [percentExceedsMsg]
    ∧ canDone 1000 Mode.percent demoFundsPct allocTotal = false
    ∧ step2Errors 1000 Mode.percent overFunds allocTotal = [] := by
  refine ⟨?_, ?_, ?_, ?_, ?_⟩
  · simp [step2Errors, h, eps]
  · by_cases hc : 100 + 1 / 10000 < pctTotal funds
    · simp [step2Errors, h, eps, hc]
    · simp [step2Errors, h, eps, hc]
  · norm_num [step2Errors, eps, pctTotal, demoFundsPct, clampNumber, numText]
    exact fun hmode => absurd hmode (by decide)
  · norm_num [canDone, step2Errors, eps, pctTotal, demoFundsPct,
      clampNumber, numText]
  · norm_num [step2Errors, eps, pctTotal, overFunds, clampNumber, numText]
    exact fun hmode => absurd hmode (by decide)

/-- Claim C5 (witness): the 30/30/30/20 percent scenario at income 1000
yields exactly the percent error and blocks finalization. -/
theorem C5_wit :
    step2Errors 1000 Mode.percent demoFundsPct 0 = [percentExceedsMsg]
    ∧ canDone 1000 Mode.percent demoFundsPct 0 = false :=
  ⟨(C5_percent 1000 0 demoFundsPct (by norm_num)).2.2.1,
   (C5_percent 1000 0 demoFundsPct (by norm_num)).2.2.2.1⟩

/-- Claim C6: switching the mode to `percent` and back to `amount` leaves
the stored fund texts (and the sources) untouched, and recomputing under
`amount` mode on that unedited text yields the raw parsed values — no unit
conversion is applied to the stored strings. -/
theorem C6_mode_switch (st : PageState) (tIncome : ℚ) :
    (setMode Mode.amount (setMode Mode.percent st)).funds = st.funds
    ∧ (setMode Mode.amount (setMode Mode.percent st)).sources = st.sources
    ∧ fundsAsAmount (setMode Mode.amount (setMode Mode.percent st)).funds
        (setMode Mode.amount (setMode Mode.percent st)).mode tIncome
        = ⟨clampNumber st.funds.ef, clampNumber st.funds.sf,
           clampNumber st.funds.spending, clampNumber st.funds.fn⟩ :=
  ⟨rfl, rfl, rfl⟩

/-- Claim C7: the concrete scenario — BPI received "1000", GCash not
received "500", amount mode, funds 300/200/400/50 — yields
`totalIncome = 1000`, no stage-1 errors, `allocatedTotal = 950`,
`remaining = 50`, no stage-2 errors, and `canDone = true`. -/
theorem C7_scenario :
    totalIncome demoSources = 1000
    ∧ step1Errors demoSources = []
    ∧ allocatedTotal
        (fundsAsAmount demoFundsAmt Mode.amount (totalIncome demoSources))
        = 950
    ∧ remaining (totalIncome demoSources)
        (allocatedTotal
          (fundsAsAmount demoFundsAmt Mode.amount (totalIncome demoSources)))
        = 50
    ∧ step2Errors (totalIncome demoSources) Mode.amount demoFundsAmt
        (allocatedTotal
          (fundsAsAmount demoFundsAmt Mode.amount (totalIncome demoSources)))
        = []
    ∧ canDone (totalIncome demoSources) Mode.amount demoFundsAmt
        (allocatedTotal
          (fundsAsAmount demoFundsAmt Mode.amount (totalIncome demoSources)))
        = true := by
  have h1 : totalIncome demoSources = 1000 := by
    simp [totalIncome, totalIncomeStep, demoSources, clampNumber, numText]
  have h3 : allocatedTotal (fundsAsAmount demoFundsAmt Mode.amount 1000)
      = 950 := by
    norm_num [allocatedTotal, fundsAsAmount, demoFundsAmt, clampNumber,
      numText]
  refine ⟨h1, ?_, ?_, ?_, ?_, ?_⟩
  · simp [step1Errors, demoSources, clampNumber, numText]
  · rw [h1]; exact h3
  · rw [h1, h3]; norm_num [remaining]
  · rw [h1, h3]
    norm_num [step2Errors, eps, pctTotal, demoFundsAmt, clampNumber, numText]
    decide
  · rw [h1, h3]
    norm_num [canDone, step2Errors, eps, pctTotal, demoFundsAmt, clampNumber,
      numText]
    decide

/-- Claim C8: `resetAll` keeps the sequence of ids and names of the sources
(none removed, none reordered), sets every source to `received = false` with
the empty amount text, empties the four fund fields, returns the mode to
`amount`, and clears the DONE snapshot. -/
theorem C8_reset (st : PageState) :
    (resetAll st).sources.map (fun s => (s.id, s.name))
        = st.sources.map (fun s => (s.id, s.name))
    ∧ (resetAll st).sources.length = st.sources.length
    ∧ (∀ s ∈ (resetAll st).sources, s.received = false ∧ s.amount = emptyText)
    ∧ (resetAll st).funds = ⟨emptyText, emptyText, emptyText, emptyText⟩
    ∧ (resetAll st).mode = Mode.amount
    ∧ (resetAll st).doneSummary = none := by
  refine ⟨?_, ?_, ?_, rfl, rfl, rfl⟩
  · rw [show (resetAll st).sources
        = st.sources.map
            (fun s => { s with received := false, amount := emptyText })
      from rfl, List.map_map]
    rfl
  · simp [resetAll]
  · intro s hs
    rcases List.mem_map.mp hs with ⟨x, _, rfl⟩
    exact ⟨rfl, rfl⟩

/-- Claim C8 (witness): resetting a finalized state with one received
source restores amount mode, clears the snapshot and keeps the single
source. -/
theorem C8_wit :
    (resetAll doneState).mode = Mode.amount
    ∧ (resetAll doneState).doneSummary = none
    ∧ (resetAll doneState).sources.length = doneState.sources.length :=
  ⟨(C8_reset doneState).2.2.2.2.1, (C8_reset doneState).2.2.2.2.2,
   (C8_reset doneState).2.1⟩

/-- Claim C9: the two save actions are atomic on error — when `canDone`
is false, DONE leaves the whole engine state (snapshot included)
unchanged, and when `step1Errors` is non-empty, Save Step 1 leaves the
whole engine state (snapshot included) unchanged. -/
theorem C9_atomic (st : PageState) :
    (st.canFinalize = false → doneStep2Local st = st)
    ∧ (step1Errors st.sources ≠ [] → saveStep1Local st = st) := by
  constructor
  · intro h
    simp [doneStep2Local, h]
  · intro h
    simp [saveStep1Local, h]

/-- Claim C9 (witness): in the initial state nothing is received, so
`canDone` is false and `step1Errors` is non-empty, and both actions are
no-ops there. -/
theorem C9_wit :
    doneStep2Local initState = initState
    ∧ saveStep1Local initState = initState := by
  constructor
  · apply (C9_atomic initState).1
    simp [PageState.canFinalize, PageState.income, canDone, step2Errors,
      totalIncome, totalIncomeStep, initState]
  · apply (C9_atomic initState).2
    simp [step1Errors, initState, clampNumber, emptyText]

/-- Claim C10: the received-checkbox handler touches only the sources list:
at every index, a source with a different id is kept as is, and the source
with the toggled id keeps its id and name, takes the new `received` flag,
keeps its amount text when toggled on and gets the empty text when toggled
off; funds, mode and snapshot are untouched. -/
theorem C10_toggle (st : PageState) (id : String) (checked : Bool) :
    (toggleReceived id checked st).funds = st.funds
    ∧ (toggleReceived id checked st).mode = st.mode
    ∧ (toggleReceived id checked st).doneSummary = st.doneSummary
    ∧ (toggleReceived id checked st).sources.length = st.sources.length
    ∧ ∀ (i : ℕ) (s : IncomeSource), st.sources[i]? = some s →
        (s.id ≠ id → (toggleReceived id checked st).sources[i]? = some s)
        ∧ (s.id = id → (toggleReceived id checked st).sources[i]? =
            some { s with
                   received := checked
                   amount := if checked then s.amount else emptyText }) := by
  refine ⟨rfl, rfl, rfl, ?_, ?_⟩
  · simp [toggleReceived, updateSource]
  · intro i s hs
    have hmap : (toggleReceived id checked st).sources[i]?
        = (st.sources[i]?).map
            (fun s =>
              if s.id = id
              then { s with
                     received := checked
                     amount := if checked then s.amount else emptyText }
              else s) := by
      simp [toggleReceived, updateSource]
    constructor
    · intro hne
      rw [hmap, hs]
      simp [hne]
    · intro heq
      rw [hmap, hs]
      simp [heq]

/-- Claim C10 (witness): toggling BPI on in the initial state sets its
`received` flag and keeps its (empty) amount text, while GCash is left
unchanged. -/
theorem C10_wit :
    (toggleReceived "bpi" true initState).sources[0]? =
      some ⟨"bpi", "BPI", true, emptyText⟩
    ∧ (toggleReceived "bpi" true initState).sources[1]? =
      some ⟨"gcash", "GCash", false, emptyText⟩ := by
  have h0 := ((C10_toggle initState "bpi" true).2.2.2.2 0
    ⟨"bpi", "BPI", false, emptyText⟩ rfl).2 rfl
  have h1 := ((C10_toggle initState "bpi" true).2.2.2.2 1
    ⟨"gcash", "GCash", false, emptyText⟩ rfl).1 (by simp)
  exact ⟨by simpa using h0, h1⟩
